import Mathlib

/-!
Verification of the exam-attempt engine of the rtsbackend repository.
The definitions below are a shallow embedding of the Python code in
`app/routes/student_exams.py`, `app/routes/exam_verification.py`,
`app/routes/exams.py` and the ORM models in `app/models/exam.py`.
Database rows become Lean structures, SQLAlchemy queries become list
operations, timestamps and dates become integers (seconds / days), and
the Python `float` percentage becomes `Rat`.  `datetime.now()` is passed
in as an explicit `now` parameter.  HTTP-layer concerns (auth, session,
institution scoping) are external collaborators and are not modelled.
-/

namespace RTS

/-- The four fixed option labels A/B/C/D (`correct_option`, `selected_option`
are validated to this set by the Pydantic schemas). -/
inductive Label | A | B | C | D
deriving DecidableEq, Repr

/-- Values of `ExamAttempt.status`: `in_progress`, `completed`, `submitted`,
`timed_out` (see `app/models/exam.py`). -/
inductive AttemptStatus | in_progress | completed | submitted | timed_out
deriving DecidableEq, Repr

/-- The terminal-status test used throughout the routes:
`status.in_(['completed', 'submitted', 'timed_out'])`. -/
def isTerminal : AttemptStatus → Bool
  | .completed => true
  | .submitted => true
  | .timed_out => true
  | .in_progress => false

/-- A `Question` row (`app/models/exam.py`); presentation-only columns
(`explanation`, timestamps) are omitted. -/
structure Question where
  id : Nat
  exam_id : Nat
  question_text : String
  option_a : String
  option_b : String
  option_c : String
  option_d : String
  correct_option : Label
  marks : Int
  order_index : Int
  is_active : Bool
deriving DecidableEq, Repr

/-- Reads the option text of a label, as getattr over the option columns. -/
def optionText (q : Question) : Label → String
  | .A => q.option_a
  | .B => q.option_b
  | .C => q.option_c
  | .D => q.option_d

/-- One per-question entry of the stored `answer_order` JSON dict: the map
from shuffled display labels (keys A,B,C,D in order) to original labels. -/
structure OptionMap where
  a : Label
  b : Label
  c : Label
  d : Label
deriving DecidableEq, Repr

/-- Look a shuffled label up in the stored map (`opt_map[new_key]`). -/
def OptionMap.apply (m : OptionMap) : Label → Label
  | .A => m.a
  | .B => m.b
  | .C => m.c
  | .D => m.d

/-- The inverse direction of the stored map: find which shuffled label holds
a given original label (first match wins). -/
def OptionMap.invApply (m : OptionMap) (l : Label) : Label :=
  if m.a = l then .A else if m.b = l then .B else if m.c = l then .C else .D

/-- The stored map's four values, as dict-insertion order. -/
def OptionMap.vals (m : OptionMap) : List Label := [m.a, m.b, m.c, m.d]

/-- The map is a genuine shuffle: its values are a permutation of the four
original labels (which is what `random.shuffle` of the 4-element option list
in `shuffle_options` produces). -/
def OptionMap.isShuffle (m : OptionMap) : Prop := m.vals.Nodup

instance (m : OptionMap) : Decidable m.isShuffle := by
  unfold OptionMap.isShuffle; infer_instance

/-- Embeds `shuffle_options` (student_exams.py lines 88-109), parametrised by the
permutation that `random.shuffle` produced: `m.a` is the original label that
ended up in shuffled slot A, and so on.  It returns the stored
`option_map` together with the shuffled option texts keyed A-D. -/
def shuffle_options (q : Question) (m : OptionMap) :
    OptionMap × (String × String × String × String) :=
  (m, (optionText q m.a, optionText q m.b, optionText q m.c, optionText q m.d))

/-- A `StudentAnswer` row (`app/models/exam.py`). -/
structure StudentAnswer where
  question_id : Nat
  selected_option : Option Label
  is_correct : Option Bool
  marks_obtained : Int
  marked_for_review : Bool
  answered_at : Option Int
deriving DecidableEq, Repr

/-- A freshly created `StudentAnswer(attempt_id=..., question_id=...)` with
the model defaults. -/
def blankAnswer (qid : Nat) : StudentAnswer :=
  { question_id := qid
    selected_option := none
    is_correct := none
    marks_obtained := 0
    marked_for_review := false
    answered_at := none }

/-- An `ExamAttempt` row (`app/models/exam.py`).  The attempt's
`StudentAnswer` rows are kept inline (the DB keys them by `attempt_id`).
`answer_order` is the JSON dict `question_id -> option map`. -/
structure ExamAttempt where
  exam_id : Nat
  student_id : Nat
  attempt_number : Int
  status : AttemptStatus
  start_time : Int
  end_time : Option Int
  time_remaining_seconds : Option Int
  total_marks : Option Int
  obtained_marks : Option Int
  percentage : Option Rat
  passed : Option Bool
  total_answered : Option Nat
  correct_answers : Option Nat
  question_order : List Nat
  answer_order : List (Nat × OptionMap)
  is_verified : Bool
  verified_by : Option Nat
  verified_at : Option Int
  verification_notes : Option String
  retake_allowed : Bool
  retake_allowed_by : Option Nat
  retake_allowed_at : Option Int
  created_at : Int
  answers : List StudentAnswer
deriving DecidableEq, Repr

/-- An `Exam` row (`app/models/exam.py`); course/module/institution foreign
keys and presentation columns are omitted. -/
structure Exam where
  id : Nat
  title : String
  total_questions : Int
  passing_marks : Int
  duration_minutes : Int
  batch_time : String
  is_active : Bool
  allow_retakes : Bool
  max_retakes : Int
  shuffle_questions : Bool
  shuffle_options : Bool
  show_result_immediately : Bool
deriving DecidableEq, Repr

/-- Embeds the query `db.query(Question).filter(Question.id == ...).first()`. -/
def findQuestion (questions : List Question) (qid : Nat) : Option Question :=
  questions.find? (fun q => q.id == qid)

/-- Looks `q_id` up in the stored `answer_order` JSON dict. -/
def lookupMap (answer_order : List (Nat × OptionMap)) (qid : Nat) :
    Option OptionMap :=
  (answer_order.find? (fun p => p.1 == qid)).map (fun p => p.2)

/-- The aggregate accumulators of `_calculate_results`. -/
structure GradeTotals where
  total_marks : Int
  obtained_marks : Int
  correct_count : Nat
  answered_count : Nat
deriving DecidableEq, Repr

/-- The accumulation loop of `_calculate_results` (student_exams.py lines
562-578): for every answer row, look the question up (skip if missing), add
its marks to the total, and if an option was selected count it as answered
and award full marks when it equals `correct_option`. -/
def gradeTotals (questions : List Question) : List StudentAnswer → GradeTotals
  | [] => { total_marks := 0, obtained_marks := 0, correct_count := 0, answered_count := 0 }
  | ans :: rest =>
    let r := gradeTotals questions rest
    match findQuestion questions ans.question_id with
    | none => r
    | some q =>
      let r1 := { r with total_marks := r.total_marks + q.marks }
      match ans.selected_option with
      | none => r1
      | some s =>
        if s = q.correct_option then
          { r1 with obtained_marks := r1.obtained_marks + q.marks
                    correct_count := r1.correct_count + 1
                    answered_count := r1.answered_count + 1 }
        else { r1 with answered_count := r1.answered_count + 1 }

/-- The per-row mutation of `_calculate_results`: set `is_correct` and
`marks_obtained` on answered rows whose question exists; unanswered rows and
rows with a missing question are left untouched. -/
def gradeOne (questions : List Question) (ans : StudentAnswer) : StudentAnswer :=
  match findQuestion questions ans.question_id with
  | none => ans
  | some q =>
    match ans.selected_option with
    | none => ans
    | some s =>
      if s = q.correct_option then
        { ans with is_correct := some true, marks_obtained := q.marks }
      else
        { ans with is_correct := some false, marks_obtained := 0 }

/-- Embeds `_calculate_results` (student_exams.py lines 550-595): grade every
answer row, store the aggregates on the attempt, compute the percentage and
pass flag (0 / False when `total_marks` is 0), and auto-verify when the exam
has `show_result_immediately`. -/
def calculate_results (questions : List Question) (exam : Exam)
    (attempt : ExamAttempt) (now : Int) : ExamAttempt :=
  let t := gradeTotals questions attempt.answers
  let graded := attempt.answers.map (gradeOne questions)
  let pct : Rat :=
    if t.total_marks > 0 then ((t.obtained_marks : Rat) / (t.total_marks : Rat)) * 100 else 0
  let didPass : Bool :=
    if t.total_marks > 0 then decide (pct ≥ (exam.passing_marks : Rat)) else false
  let a := { attempt with
    answers := graded
    total_marks := some t.total_marks
    obtained_marks := some t.obtained_marks
    correct_answers := some t.correct_count
    total_answered := some t.answered_count
    percentage := some pct
    passed := some didPass }
  if exam.show_result_immediately then
    { a with is_verified := true, verified_at := some now }
  else a

/-- The request body of the answer auto-save endpoint (`AnswerSubmit` in
`app/schemas/exam.py`): the Pydantic pattern `^[ABCD]$` confines
`selected_option` to the four labels. -/
structure AnswerSubmit where
  question_id : Nat
  selected_option : Option Label
  marked_for_review : Bool
deriving DecidableEq, Repr

/-- The "find or create answer record" step of `submit_answer`: update the
(first) existing row for the question, or create a fresh one and apply the
update to it. -/
def updateAnswerRow (qid : Nat) (f : StudentAnswer → StudentAnswer) :
    List StudentAnswer → List StudentAnswer
  | [] => [f (blankAnswer qid)]
  | a :: rest =>
    if a.question_id = qid then f a :: rest
    else a :: updateAnswerRow qid f rest

/-- The shuffled-to-original translation of `submit_answer` (lines 493-499):
`selected = opt_map.get(selected, selected)` when the attempt stored a map
for the question, identity otherwise. -/
def translateSelected (answer_order : List (Nat × OptionMap)) (qid : Nat)
    (s : Label) : Label :=
  match lookupMap answer_order qid with
  | some m => m.apply s
  | none => s

/-- Embeds `submit_answer` (student_exams.py lines 448-511), after the
attempt-ownership lookup.  Returns the call's outcome (`Except` mirrors
`HTTPException` vs the saved response with its remaining time) together
with the attempt state as persisted by the call: laziness of note, the
expiry branch commits the forced `timed_out` transition and the grading
results even though the call itself fails, and the submitted answer is
never written in that branch. -/
def submit_answer (questions : List Question) (exam : Exam)
    (attempt : ExamAttempt) (data : AnswerSubmit) (now : Int) :
    Except String Int × ExamAttempt :=
  if attempt.status ≠ .in_progress then
    (.error "Cannot modify exam", attempt)
  else
    let elapsed := now - attempt.start_time
    if elapsed > exam.duration_minutes * 60 then
      let expired := { attempt with
        status := AttemptStatus.timed_out
        end_time := some now }
      (.error "Exam time has expired", calculate_results questions exam expired now)
    else
      let selected : Option Label :=
        data.selected_option.map (translateSelected attempt.answer_order data.question_id)
      let upd : StudentAnswer → StudentAnswer := fun a =>
        { a with selected_option := selected
                 marked_for_review := data.marked_for_review
                 answered_at := some now }
      let remaining := max 0 (exam.duration_minutes * 60 - elapsed)
      (.ok remaining,
       { attempt with
         answers := updateAnswerRow data.question_id upd attempt.answers
         time_remaining_seconds := some remaining })

/-- The resume branch of `start_exam` (student_exams.py lines 265-283),
reached when an `in_progress` attempt exists for (student, exam): recompute
the remaining time; on expiry commit the forced `timed_out` transition plus
grading and fail the call, otherwise refresh the stored
`time_remaining_seconds` snapshot and succeed. -/
def resume_attempt (questions : List Question) (exam : Exam)
    (attempt : ExamAttempt) (now : Int) : Except String Int × ExamAttempt :=
  let elapsed := now - attempt.start_time
  let time_limit := exam.duration_minutes * 60
  let remaining := max 0 (time_limit - elapsed)
  if remaining ≤ 0 then
    let expired := { attempt with
      status := AttemptStatus.timed_out
      end_time := some now }
    (.error "Exam time has expired", calculate_results questions exam expired now)
  else
    (.ok remaining, { attempt with time_remaining_seconds := some remaining })

/-- The attempt-creation branch of `start_exam` (student_exams.py lines
308-347), parametrised by the shuffles `random.shuffle` produced:
`question_ids` is the (possibly shuffled) list of the exam's active question
ids and `answer_order` the per-question option maps (empty when
`shuffle_options` is off).  One empty `StudentAnswer` row is materialised
per question immediately after the attempt row is created. -/
def create_attempt (exam : Exam) (student_id : Nat)
    (question_ids : List Nat) (answer_order : List (Nat × OptionMap))
    (completed_attempts : Nat) (now : Int) : ExamAttempt :=
  { exam_id := exam.id
    student_id := student_id
    attempt_number := (completed_attempts : Int) + 1
    status := AttemptStatus.in_progress
    start_time := now
    end_time := none
    time_remaining_seconds := some (exam.duration_minutes * 60)
    total_marks := none
    obtained_marks := none
    percentage := none
    passed := none
    total_answered := some 0
    correct_answers := some 0
    question_order := question_ids
    answer_order := answer_order
    is_verified := false
    verified_by := none
    verified_at := none
    verification_notes := none
    retake_allowed := false
    retake_allowed_by := none
    retake_allowed_at := none
    created_at := now
    answers := question_ids.map blankAnswer }

/-- Embeds `submit_exam` (student_exams.py lines 516-547), after the ownership
lookup: reject unless `in_progress`, otherwise transition to `submitted`,
stamp `end_time` and grade. -/
def submit_exam (questions : List Question) (exam : Exam)
    (attempt : ExamAttempt) (now : Int) : Except String ExamAttempt :=
  if attempt.status ≠ .in_progress then
    .error "Exam is already terminal"
  else
    .ok (calculate_results questions exam
      { attempt with status := AttemptStatus.submitted, end_time := some now } now)

/-- Embeds `verify_attempt` (exam_verification.py lines 175-209), after the
manager-role and institution-scope checks: only a terminal, not yet
verified attempt can be verified; on success the verification fields are
stamped. -/
def verify_attempt (attempt : ExamAttempt) (verifier : Nat)
    (notes : Option String) (now : Int) : Except String ExamAttempt :=
  if ¬ (isTerminal attempt.status) then
    .error "Cannot verify an in-progress exam"
  else if attempt.is_verified then
    .error "Attempt already verified"
  else
    .ok { attempt with
      is_verified := true
      verified_by := some verifier
      verified_at := some now
      verification_notes := notes }

/-- Embeds `allow_retake` (exam_verification.py lines 214-251), after the
manager-role and institution-scope checks: only on a terminal attempt; set
the retake-grant fields, and additionally stamp the verification fields if
the attempt was not yet verified. -/
def allow_retake (attempt : ExamAttempt) (granter : Nat)
    (notes : Option String) (now : Int) : Except String ExamAttempt :=
  if ¬ (isTerminal attempt.status) then
    .error "Cannot allow retake for an in-progress exam"
  else
    let a := { attempt with
      retake_allowed := true
      retake_allowed_by := some granter
      retake_allowed_at := some now }
    .ok (if ¬ a.is_verified then
      { a with
        is_verified := true
        verified_by := some granter
        verified_at := some now
        verification_notes := notes }
    else a)

/-- One row of the student results listing (`ExamResultResponse` in
`app/schemas/exam.py`); identifier/title columns omitted. -/
structure ExamResultResponse where
  attempt_number : Int
  status : AttemptStatus
  total_questions : Nat
  total_answered : Nat
  correct_answers : Nat
  total_marks : Int
  obtained_marks : Int
  percentage : Rat
  passed : Bool
  is_verified : Bool
  verified_at : Option Int
deriving DecidableEq, Repr

/-- The response row built by `get_my_results` for one attempt, with the
`or 0` / `or False` null-coalescing of the code. -/
def toResultResponse (a : ExamAttempt) : ExamResultResponse :=
  { attempt_number := a.attempt_number
    status := a.status
    total_questions := a.question_order.length
    total_answered := a.total_answered.getD 0
    correct_answers := a.correct_answers.getD 0
    total_marks := a.total_marks.getD 0
    obtained_marks := a.obtained_marks.getD 0
    percentage := a.percentage.getD 0
    passed := a.passed.getD false
    is_verified := a.is_verified
    verified_at := a.verified_at }

/-- Insertion step of the `order_by(created_at.desc())` sort. -/
def insertByCreatedDesc (a : ExamAttempt) :
    List ExamAttempt → List ExamAttempt
  | [] => [a]
  | b :: rest =>
    if b.created_at ≥ a.created_at then b :: insertByCreatedDesc a rest
    else a :: b :: rest

/-- Embeds `order_by(ExamAttempt.created_at.desc())` as an insertion sort. -/
def sortByCreatedDesc : List ExamAttempt → List ExamAttempt
  | [] => []
  | a :: rest => insertByCreatedDesc a (sortByCreatedDesc rest)

/-- Embeds `get_my_results` (student_exams.py lines 600-644): the student's
attempts filtered to `is_verified == True`, newest first, rendered as
result rows. -/
def get_my_results (attempts : List ExamAttempt) (student_id : Nat) :
    List ExamResultResponse :=
  (sortByCreatedDesc
    (attempts.filter (fun a => a.student_id == student_id && a.is_verified))).map
    toResultResponse

/-- Python's `max(xs, key=key)` over `cur :: rest`: the first element
attaining the maximum key (replacement only on strict increase). -/
def firstMaxBy {β : Type} [LinearOrder β] (key : ExamAttempt → β)
    (cur : ExamAttempt) : List ExamAttempt → ExamAttempt
  | [] => cur
  | x :: rest =>
    if key x > key cur then firstMaxBy key x rest else firstMaxBy key cur rest

/-- Outcome of the availability evaluation for one exam in
`get_available_exams`. -/
inductive GateOutcome
  | eligible (can_retake : Bool)
  | locked (reason : String)
deriving DecidableEq, Repr

/-- The lock/retake evaluation of `get_available_exams` (student_exams.py
lines 156-188): given the payment and schedule check results and the
student's attempts on the exam.  `previous_attempts` is the count of ALL
attempts while `completed_attempts` keeps only terminal ones, exactly as in
the code. -/
def availability_gate (exam : Exam) (has_payment : Bool) (is_scheduled : Bool)
    (schedule_message : String) (attempts : List ExamAttempt) : GateOutcome :=
  let previous_attempts := attempts.length
  let completed_attempts := attempts.filter (fun a => isTerminal a.status)
  if ¬ has_payment then .locked "Payment pending"
  else if ¬ is_scheduled then .locked schedule_message
  else
    match completed_attempts with
    | [] => .eligible false
    | c :: cs =>
      if exam.allow_retakes then
        if exam.max_retakes = 0 ∨ (previous_attempts : Int) < exam.max_retakes then
          let last_attempt := firstMaxBy (fun a => a.created_at) c cs
          if last_attempt.retake_allowed then .eligible true
          else .locked "Awaiting retake permission"
        else .locked "Maximum retakes reached"
      else .locked "Exam already completed"

/-- The retake gate of `start_exam` (student_exams.py lines 285-306),
reached when no `in_progress` attempt exists: `completed_attempts` is the
count of terminal attempts, and `last_attempt` the most recent attempt of
any status (`order_by(created_at.desc()).first()`). -/
def start_retake_gate (exam : Exam) (attempts : List ExamAttempt) :
    Except String Unit :=
  let completed_attempts := (attempts.filter (fun a => isTerminal a.status)).length
  if completed_attempts > 0 then
    if ¬ exam.allow_retakes then
      .error "Exam already completed, retakes not allowed"
    else if exam.max_retakes > 0 ∧ (completed_attempts : Int) ≥ exam.max_retakes then
      .error "Maximum retake attempts reached"
    else
      match attempts with
      | [] => .ok ()
      | a :: rest =>
        if ¬ (firstMaxBy (fun x => x.created_at) a rest).retake_allowed then
          .error "Awaiting retake permission from manager"
        else .ok ()
  else .ok ()

/-- The best-score computation of `get_available_exams` (student_exams.py
lines 190-195): take the completed attempt with the highest percentage
(`a.percentage or 0` null-coalescing) and surface its percentage only if
THAT attempt is verified. -/
def best_score (attempts : List ExamAttempt) : Option Rat :=
  let completed_attempts := attempts.filter (fun a => isTerminal a.status)
  match completed_attempts with
  | [] => none
  | c :: cs =>
    let best := firstMaxBy (fun a => a.percentage.getD 0) c cs
    if best.is_verified then best.percentage else none

/-- The fields of a `Student` row consulted by the exam engine
(`app/models/student.py`): batch time-slot and the optional A/B batch
identifier.  An unset (NULL, which is also Python-falsy) identifier is
`none`. -/
structure Student where
  id : Nat
  batch_time : String
  batch_identifier : Option String
deriving DecidableEq, Repr

/-- An `ExamSchedule` row (`app/models/exam.py`); dates are day numbers and
times of day are seconds, both as integers. -/
structure ExamSchedule where
  id : Nat
  exam_id : Nat
  batch_time : String
  batch_identifier : Option String
  scheduled_date : Int
  start_time : Int
  end_time : Int
  is_active : Bool
deriving DecidableEq, Repr

/-- The schedule-row filter built by `check_exam_schedule` (student_exams.py
lines 50-62): active schedule of this exam, equal batch time, dated today;
the identifier disjunction (schedule identifier equal or NULL) is added ONLY
when the student has a batch identifier (`if student.batch_identifier:`). -/
def schedule_matches (exam_id : Nat) (student : Student) (today : Int)
    (s : ExamSchedule) : Bool :=
  s.exam_id == exam_id && s.is_active && s.batch_time == student.batch_time
    && s.scheduled_date == today
    && (match student.batch_identifier with
        | none => true
        | some bid => s.batch_identifier == some bid || s.batch_identifier == none)

/-- Embeds `order_by(scheduled_date).first()`: the first schedule attaining the
minimum date. -/
def firstMinByDate (cur : ExamSchedule) : List ExamSchedule → ExamSchedule
  | [] => cur
  | x :: rest =>
    if x.scheduled_date < cur.scheduled_date then firstMinByDate x rest
    else firstMinByDate cur rest

/-- Embeds `check_exam_schedule` (student_exams.py lines 43-85): find a matching
schedule for today (first row wins); failing that report the earliest
future schedule for the batch or a generic message; with a match, require
the current time of day to lie inside `[start_time, end_time]`.  Returns
the `(ok, schedule, message)` triple of the code. -/
def check_exam_schedule (schedules : List ExamSchedule) (exam : Exam)
    (student : Student) (today : Int) (current_time : Int) :
    Bool × Option ExamSchedule × String :=
  match schedules.filter (schedule_matches exam.id student today) with
  | [] =>
    match schedules.filter (fun s =>
        s.exam_id == exam.id && s.is_active
          && s.batch_time == student.batch_time && s.scheduled_date > today) with
    | [] => (false, none, "Exam not scheduled for your batch")
    | f :: fs =>
      (false, none, "Exam scheduled for " ++ toString (firstMinByDate f fs).scheduled_date)
  | s :: _ =>
    if current_time < s.start_time then
      (false, some s, "Exam starts at " ++ toString s.start_time)
    else if current_time > s.end_time then
      (false, some s, "Exam time has ended")
    else (true, some s, "")

/-- The body of `QuestionCreate` (`app/schemas/exam.py`): marks are
validated `ge=1` and `correct_option` to the four labels. -/
structure QuestionInput where
  question_text : String
  option_a : String
  option_b : String
  option_c : String
  option_d : String
  correct_option : Label
  marks : Int
  order_index : Option Int
deriving DecidableEq, Repr

/-- The body of `QuestionUpdate` (`app/schemas/exam.py`); every field
optional, absent fields are excluded from the update. -/
structure QuestionUpdate where
  question_text : Option String
  option_a : Option String
  option_b : Option String
  option_c : Option String
  option_d : Option String
  correct_option : Option Label
  marks : Option Int
  order_index : Option Int
  is_active : Option Bool
deriving DecidableEq, Repr

/-- Counts `Question` rows of this exam with `is_active` set. -/
def countActiveQuestions (questions : List Question) (exam_id : Nat) : Int :=
  ((questions.filter (fun q => q.exam_id == exam_id && q.is_active)).length : Int)

/-- Embeds `func.max(Question.order_index)` over this exam's questions, with the
`or 0` fallback for an exam with no questions. -/
def maxOrderIndex (questions : List Question) (exam_id : Nat) : Int :=
  match (questions.filter (fun q => q.exam_id == exam_id)).map
      (fun q => q.order_index) with
  | [] => 0
  | x :: xs => xs.foldl max x

/-- Embeds `add_question` (exams.py lines 215-262), after the manager/scope checks:
insert the new question (active by column default) and set the exam's
`total_questions` to the pre-insert active count plus one.  The count query
runs against the store as it stood before the pending insert (the session
does not flush the insert before it). -/
def add_question (exam : Exam) (questions : List Question)
    (qd : QuestionInput) (new_id : Nat) : Exam × List Question :=
  let order_index := qd.order_index.getD (maxOrderIndex questions exam.id + 1)
  let newQ : Question :=
    { id := new_id
      exam_id := exam.id
      question_text := qd.question_text
      option_a := qd.option_a
      option_b := qd.option_b
      option_c := qd.option_c
      option_d := qd.option_d
      correct_option := qd.correct_option
      marks := qd.marks
      order_index := order_index
      is_active := true }
  ({ exam with total_questions := countActiveQuestions questions exam.id + 1 },
   questions ++ [newQ])

/-- Embeds `add_questions_bulk` (exams.py lines 265-315): insert every question of
the batch (fresh ids `first_id, first_id+1, ...`) and set
`total_questions` to the pre-insert active count plus the batch size. -/
def add_questions_bulk (exam : Exam) (questions : List Question)
    (qds : List QuestionInput) (first_id : Nat) : Exam × List Question :=
  let max_order := maxOrderIndex questions exam.id
  let newQs := ((List.range qds.length).zip qds).map (fun p =>
    ({ id := first_id + p.1
       exam_id := exam.id
       question_text := p.2.question_text
       option_a := p.2.option_a
       option_b := p.2.option_b
       option_c := p.2.option_c
       option_d := p.2.option_d
       correct_option := p.2.correct_option
       marks := p.2.marks
       order_index := p.2.order_index.getD (max_order + (p.1 : Int) + 1)
       is_active := true } : Question))
  ({ exam with
      total_questions := countActiveQuestions questions exam.id + (qds.length : Int) },
   questions ++ newQs)

/-- Apply `model_dump(exclude_unset=True)` of a `QuestionUpdate` to a
question row. -/
def applyQuestionUpdate (q : Question) (u : QuestionUpdate) : Question :=
  { q with
    question_text := u.question_text.getD q.question_text
    option_a := u.option_a.getD q.option_a
    option_b := u.option_b.getD q.option_b
    option_c := u.option_c.getD q.option_c
    option_d := u.option_d.getD q.option_d
    correct_option := u.correct_option.getD q.correct_option
    marks := u.marks.getD q.marks
    order_index := u.order_index.getD q.order_index
    is_active := u.is_active.getD q.is_active }

/-- Embeds `update_question` (exams.py lines 344-381): patch the question; when
the update touched `is_active`, recount the owning exam's active questions
(after the patch is committed) and store it as `total_questions`. -/
def update_question (exam : Exam) (questions : List Question) (qid : Nat)
    (u : QuestionUpdate) : Except String (Exam × List Question) :=
  match findQuestion questions qid with
  | none => .error "Question not found"
  | some _ =>
    let questions' := questions.map (fun x =>
      if x.id = qid then applyQuestionUpdate x u else x)
    let exam' :=
      if u.is_active.isSome then
        { exam with total_questions := countActiveQuestions questions' exam.id }
      else exam
    .ok (exam', questions')

/-- Embeds `delete_question` (exams.py lines 384-413): remove the question row and
set `total_questions` to the pre-delete active count minus one — with no
regard to whether the deleted question was itself active. -/
def delete_question (exam : Exam) (questions : List Question) (qid : Nat) :
    Except String (Exam × List Question) :=
  match findQuestion questions qid with
  | none => .error "Question not found"
  | some _ =>
    .ok ({ exam with total_questions := countActiveQuestions questions exam.id - 1 },
         questions.eraseP (fun x => x.id == qid))

/-- Embeds the query `db.query(StudentAnswer).filter(attempt_id, question_id).first()`. -/
def findAnswer (answers : List StudentAnswer) (qid : Nat) : Option StudentAnswer :=
  answers.find? (fun a => a.question_id == qid)

/-- The state the call leaves persisted: the returned attempt on success,
the unchanged input attempt on failure. -/
def exceptState (attempt : ExamAttempt) : Except String ExamAttempt → ExamAttempt
  | .ok a => a
  | .error _ => attempt

/-- The claimed invariant of §8: the attempt's answer rows are, as a
multiset, exactly the question ids of its `question_order`. -/
def answersMatchOrder (attempt : ExamAttempt) : Prop :=
  (attempt.answers.map (fun a => a.question_id)).Perm attempt.question_order

instance (attempt : ExamAttempt) : Decidable (answersMatchOrder attempt) := by
  unfold answersMatchOrder; exact List.decidablePerm _ _

/-- Marks contribution of one answer row to `total_marks`: its question's
marks (rows whose question has disappeared are skipped by the loop). -/
def marksOfAnswer (questions : List Question) (a : StudentAnswer) : Int :=
  match findQuestion questions a.question_id with
  | none => 0
  | some q => q.marks

/-- Marks contribution of one answer row to `obtained_marks`: the question's
full marks when the selected option equals `correct_option`, zero otherwise
(unanswered contributes zero). -/
def obtainedOfAnswer (questions : List Question) (a : StudentAnswer) : Int :=
  match findQuestion questions a.question_id, a.selected_option with
  | some q, some s => if s = q.correct_option then q.marks else 0
  | _, _ => 0

/-- Whether one answer row counts as correct: answered with the question's
correct option. -/
def answerCorrect (questions : List Question) (a : StudentAnswer) : Bool :=
  match findQuestion questions a.question_id, a.selected_option with
  | some q, some s => s == q.correct_option
  | _, _ => false

/-- Whether one answer row counts into `total_answered`: a non-null
selection (on a row whose question still exists). -/
def answerCounted (questions : List Question) (a : StudentAnswer) : Bool :=
  match findQuestion questions a.question_id, a.selected_option with
  | some _, some _ => true
  | _, _ => false

theorem gradeTotals_eq (questions : List Question) (answers : List StudentAnswer) :
    gradeTotals questions answers =
      { total_marks := (answers.map (marksOfAnswer questions)).sum
        obtained_marks := (answers.map (obtainedOfAnswer questions)).sum
        correct_count := answers.countP (answerCorrect questions)
        answered_count := answers.countP (answerCounted questions) } := by
  induction answers with
  | nil => rfl
  | cons a rest ih =>
    cases hq : findQuestion questions a.question_id with
    | none =>
      simp [gradeTotals, hq, ih, marksOfAnswer, obtainedOfAnswer, answerCorrect,
        answerCounted]
    | some q =>
      cases hs : a.selected_option with
      | none =>
        simp [gradeTotals, hq, hs, ih, marksOfAnswer, obtainedOfAnswer,
          answerCorrect, answerCounted, GradeTotals.mk.injEq]
        omega
      | some s =>
        by_cases hc : s = q.correct_option
        · simp [gradeTotals, hq, hs, hc, ih, marksOfAnswer, obtainedOfAnswer,
            answerCorrect, answerCounted, GradeTotals.mk.injEq]
          omega
        · simp [gradeTotals, hq, hs, hc, ih, marksOfAnswer, obtainedOfAnswer,
            answerCorrect, answerCounted, GradeTotals.mk.injEq]
          omega

theorem gradeOne_question_id (questions : List Question) (a : StudentAnswer) :
    (gradeOne questions a).question_id = a.question_id := by
  unfold gradeOne
  cases findQuestion questions a.question_id with
  | none => rfl
  | some q =>
    cases a.selected_option with
    | none => rfl
    | some s => by_cases hc : s = q.correct_option <;> simp [hc]

theorem gradeOne_selected_option (questions : List Question) (a : StudentAnswer) :
    (gradeOne questions a).selected_option = a.selected_option := by
  unfold gradeOne
  cases findQuestion questions a.question_id with
  | none => rfl
  | some q =>
    cases hs : a.selected_option with
    | none => simp [hs]
    | some s => by_cases hc : s = q.correct_option <;> simp [hc, hs]

theorem calculate_results_answers_ids (questions : List Question) (exam : Exam)
    (attempt : ExamAttempt) (now : Int) :
    (calculate_results questions exam attempt now).answers.map (fun a => a.question_id) =
      attempt.answers.map (fun a => a.question_id) := by
  unfold calculate_results
  split <;> simp [List.map_map, Function.comp_def, gradeOne_question_id]

theorem calculate_results_answers_selected (questions : List Question) (exam : Exam)
    (attempt : ExamAttempt) (now : Int) :
    (calculate_results questions exam attempt now).answers.map (fun a => a.selected_option) =
      attempt.answers.map (fun a => a.selected_option) := by
  unfold calculate_results
  split <;> simp [List.map_map, Function.comp_def, gradeOne_selected_option]

theorem calculate_results_status (questions : List Question) (exam : Exam)
    (attempt : ExamAttempt) (now : Int) :
    (calculate_results questions exam attempt now).status = attempt.status := by
  unfold calculate_results; split <;> rfl

theorem calculate_results_end_time (questions : List Question) (exam : Exam)
    (attempt : ExamAttempt) (now : Int) :
    (calculate_results questions exam attempt now).end_time = attempt.end_time := by
  unfold calculate_results; split <;> rfl

theorem calculate_results_question_order (questions : List Question) (exam : Exam)
    (attempt : ExamAttempt) (now : Int) :
    (calculate_results questions exam attempt now).question_order = attempt.question_order := by
  unfold calculate_results; split <;> rfl

theorem calculate_results_aggregates_set (questions : List Question) (exam : Exam)
    (attempt : ExamAttempt) (now : Int) :
    (calculate_results questions exam attempt now).total_marks.isSome = true ∧
    (calculate_results questions exam attempt now).obtained_marks.isSome = true ∧
    (calculate_results questions exam attempt now).percentage.isSome = true ∧
    (calculate_results questions exam attempt now).passed.isSome = true ∧
    (calculate_results questions exam attempt now).total_answered.isSome = true ∧
    (calculate_results questions exam attempt now).correct_answers.isSome = true := by
  unfold calculate_results; split <;> simp

theorem updateAnswerRow_ids (qid : Nat) (f : StudentAnswer → StudentAnswer)
    (hf : ∀ a, (f a).question_id = a.question_id) (answers : List StudentAnswer)
    (hmem : qid ∈ answers.map (fun a => a.question_id)) :
    (updateAnswerRow qid f answers).map (fun a => a.question_id) =
      answers.map (fun a => a.question_id) := by
  induction answers with
  | nil => simp at hmem
  | cons a rest ih =>
    simp only [updateAnswerRow]
    by_cases h : a.question_id = qid
    · simp [h, hf]
    · simp only [if_neg h, List.map_cons]
      have hmem' : qid ∈ rest.map (fun a => a.question_id) := by
        simp only [List.map_cons, List.mem_cons] at hmem
        rcases hmem with h1 | h2
        · exact absurd h1.symm h
        · exact h2
      rw [ih hmem']

theorem findAnswer_updateAnswerRow (qid : Nat) (f : StudentAnswer → StudentAnswer)
    (hf : ∀ a, (f a).question_id = a.question_id) (answers : List StudentAnswer) :
    findAnswer (updateAnswerRow qid f answers) qid =
      some (f ((findAnswer answers qid).getD (blankAnswer qid))) := by
  induction answers with
  | nil => simp [updateAnswerRow, findAnswer, hf, blankAnswer]
  | cons a rest ih =>
    by_cases h : a.question_id = qid
    · simp [updateAnswerRow, findAnswer, h, hf]
    · simp only [updateAnswerRow, if_neg h, findAnswer, List.find?_cons]
      have hne : (a.question_id == qid) = false := by simp [h]
      simp only [hne]
      exact ih

theorem firstMaxBy_mem {β : Type} [LinearOrder β] (key : ExamAttempt → β)
    (cur : ExamAttempt) (l : List ExamAttempt) :
    firstMaxBy key cur l = cur ∨ firstMaxBy key cur l ∈ l := by
  induction l generalizing cur with
  | nil => left; rfl
  | cons x rest ih =>
    simp only [firstMaxBy]
    by_cases h : key x > key cur
    · simp only [if_pos h]
      rcases ih x with h1 | h2
      · right; simp [h1]
      · right; simp [h2]
    · simp only [if_neg h]
      rcases ih cur with h1 | h2
      · left; exact h1
      · right; simp [h2]

theorem firstMaxBy_key_le {β : Type} [LinearOrder β] (key : ExamAttempt → β)
    (cur : ExamAttempt) (l : List ExamAttempt) :
    ∀ b, (b = cur ∨ b ∈ l) → key b ≤ key (firstMaxBy key cur l) := by
  induction l generalizing cur with
  | nil =>
    intro b hb
    rcases hb with h1 | h2
    · subst h1; exact le_refl _
    · simp at h2
  | cons x rest ih =>
    intro b hb
    simp only [firstMaxBy]
    by_cases h : key x > key cur
    · simp only [if_pos h]
      rcases hb with h1 | h2
      · subst h1
        exact le_trans (le_of_lt h) (ih x x (Or.inl rfl))
      · rcases List.mem_cons.mp h2 with h3 | h4
        · subst h3; exact ih b b (Or.inl rfl)
        · exact ih x b (Or.inr h4)
    · simp only [if_neg h]
      rcases hb with h1 | h2
      · subst h1; exact ih b b (Or.inl rfl)
      · rcases List.mem_cons.mp h2 with h3 | h4
        · subst h3
          exact le_trans (le_of_not_lt h) (ih cur cur (Or.inl rfl))
        · exact ih cur b (Or.inr h4)

theorem mem_insertByCreatedDesc {x a : ExamAttempt} {l : List ExamAttempt} :
    x ∈ insertByCreatedDesc a l ↔ x = a ∨ x ∈ l := by
  induction l with
  | nil => simp [insertByCreatedDesc]
  | cons b rest ih =>
    simp only [insertByCreatedDesc]
    by_cases h : b.created_at ≥ a.created_at
    · simp only [if_pos h, List.mem_cons, ih]
      tauto
    · simp only [if_neg h, List.mem_cons]

theorem mem_sortByCreatedDesc {x : ExamAttempt} {l : List ExamAttempt} :
    x ∈ sortByCreatedDesc l ↔ x ∈ l := by
  induction l with
  | nil => simp [sortByCreatedDesc]
  | cons a rest ih =>
    simp [sortByCreatedDesc, mem_insertByCreatedDesc, ih]

/-- A concrete submitted, verified, graded attempt of student 5 on exam 10,
used as witness input. -/
def wAttempt : ExamAttempt :=
  { exam_id := 10
    student_id := 5
    attempt_number := 1
    status := AttemptStatus.submitted
    start_time := 0
    end_time := some 3000
    time_remaining_seconds := some 0
    total_marks := some 3
    obtained_marks := some 1
    percentage := some 50
    passed := some true
    total_answered := some 2
    correct_answers := some 1
    question_order := [1, 2]
    answer_order := []
    is_verified := true
    verified_by := some 7
    verified_at := some 4000
    verification_notes := none
    retake_allowed := false
    retake_allowed_by := none
    retake_allowed_at := none
    created_at := 100
    answers := [{ blankAnswer 1 with selected_option := some Label.A },
                { blankAnswer 2 with selected_option := some Label.C }] }

/-- Claim C1: every row returned by the student results-listing operation
has `is_verified = true`; an attempt with `is_verified = false` is never
included, regardless of its status or scores. -/
theorem c1_results_listing_only_verified (attempts : List ExamAttempt)
    (student_id : Nat) (r : ExamResultResponse)
    (hr : r ∈ get_my_results attempts student_id) : r.is_verified = true := by
  unfold get_my_results at hr
  rcases List.mem_map.mp hr with ⟨a, ha, rfl⟩
  have ha' := mem_sortByCreatedDesc.mp ha
  have hmem := List.mem_filter.mp ha'
  have hv : a.is_verified = true := by
    have h2 := hmem.2
    simp only [Bool.and_eq_true, beq_iff_eq] at h2
    exact h2.2
  simp [toResultResponse, hv]

/-- Witness for C1 at a concrete verified attempt. -/
theorem c1_results_listing_only_verified_witness :
    (toResultResponse wAttempt).is_verified = true :=
  c1_results_listing_only_verified [wAttempt] 5 (toResultResponse wAttempt)
    (by decide)

/-- The fields of an attempt that neither Verify nor Allow-retake may
touch: identity, lifecycle, frozen orderings, every scoring output and the
answer rows. -/
def coreUnchanged (a b : ExamAttempt) : Prop :=
  b.exam_id = a.exam_id ∧ b.student_id = a.student_id ∧
  b.attempt_number = a.attempt_number ∧ b.status = a.status ∧
  b.start_time = a.start_time ∧ b.end_time = a.end_time ∧
  b.time_remaining_seconds = a.time_remaining_seconds ∧
  b.question_order = a.question_order ∧ b.answer_order = a.answer_order ∧
  b.total_marks = a.total_marks ∧ b.obtained_marks = a.obtained_marks ∧
  b.percentage = a.percentage ∧ b.passed = a.passed ∧
  b.total_answered = a.total_answered ∧ b.correct_answers = a.correct_answers ∧
  b.created_at = a.created_at ∧ b.answers = a.answers

instance (a b : ExamAttempt) : Decidable (coreUnchanged a b) := by
  unfold coreUnchanged; infer_instance

/-- Claim C10: a successful Verify changes only the verification fields and
a successful Allow-retake only those plus the retake-grant fields; status,
times, frozen orderings, all scoring outputs and the answer rows are
untouched by both. -/
theorem c10_verify_allow_retake_frame (attempt : ExamAttempt) (u : Nat)
    (notes : Option String) (now : Int) :
    (∀ a', verify_attempt attempt u notes now = .ok a' →
      coreUnchanged attempt a' ∧
      a'.retake_allowed = attempt.retake_allowed ∧
      a'.retake_allowed_by = attempt.retake_allowed_by ∧
      a'.retake_allowed_at = attempt.retake_allowed_at ∧
      a'.is_verified = true ∧ a'.verified_by = some u ∧
      a'.verified_at = some now ∧ a'.verification_notes = notes) ∧
    (∀ a', allow_retake attempt u notes now = .ok a' →
      coreUnchanged attempt a' ∧ a'.retake_allowed = true ∧
      a'.retake_allowed_by = some u ∧ a'.retake_allowed_at = some now ∧
      a'.is_verified = true) := by
  constructor
  · intro a' h
    unfold verify_attempt at h
    split at h
    · exact absurd h (by simp)
    · split at h
      · exact absurd h (by simp)
      · simp only [Except.ok.injEq] at h
        subst h
        simp [coreUnchanged]
  · intro a' h
    unfold allow_retake at h
    split at h
    · exact absurd h (by simp)
    · simp only [Except.ok.injEq] at h
      subst h
      by_cases hv : attempt.is_verified
      · simp [hv, coreUnchanged]
      · simp [hv, coreUnchanged]

/-- The same attempt, not yet verified: input for the C10 witness. -/
def c10Attempt : ExamAttempt :=
  { wAttempt with is_verified := false, verified_by := none, verified_at := none }

/-- What Verify produces on `c10Attempt`. -/
def c10Verified : ExamAttempt :=
  { c10Attempt with
    is_verified := true
    verified_by := some 7
    verified_at := some 99
    verification_notes := none }

/-- What Allow-retake produces on `c10Attempt`. -/
def c10Retaken : ExamAttempt :=
  { c10Attempt with
    retake_allowed := true
    retake_allowed_by := some 7
    retake_allowed_at := some 99
    is_verified := true
    verified_by := some 7
    verified_at := some 99
    verification_notes := none }

/-- Witness for C10: both operations succeed on a concrete terminal
unverified attempt, with the frame conditions holding. -/
theorem c10_verify_allow_retake_frame_witness :
    (coreUnchanged c10Attempt c10Verified ∧
      c10Verified.retake_allowed = c10Attempt.retake_allowed ∧
      c10Verified.retake_allowed_by = c10Attempt.retake_allowed_by ∧
      c10Verified.retake_allowed_at = c10Attempt.retake_allowed_at ∧
      c10Verified.is_verified = true ∧ c10Verified.verified_by = some 7 ∧
      c10Verified.verified_at = some 99 ∧ c10Verified.verification_notes = none) ∧
    (coreUnchanged c10Attempt c10Retaken ∧ c10Retaken.retake_allowed = true ∧
      c10Retaken.retake_allowed_by = some 7 ∧
      c10Retaken.retake_allowed_at = some 99 ∧
      c10Retaken.is_verified = true) :=
  ⟨(c10_verify_allow_retake_frame c10Attempt 7 none 99).1 c10Verified (by rfl),
   (c10_verify_allow_retake_frame c10Attempt 7 none 99).2 c10Retaken (by rfl)⟩

theorem marksOfAnswer_nonneg (questions : List Question) (a : StudentAnswer)
    (hmarks : ∀ q ∈ questions, 1 ≤ q.marks) : 0 ≤ marksOfAnswer questions a := by
  unfold marksOfAnswer
  cases hq : findQuestion questions a.question_id with
  | none => exact le_refl 0
  | some q =>
    have hqm := hmarks q (List.mem_of_find?_eq_some hq)
    show (0 : Int) ≤ q.marks
    omega

theorem obtainedOfAnswer_nonneg (questions : List Question) (a : StudentAnswer)
    (hmarks : ∀ q ∈ questions, 1 ≤ q.marks) : 0 ≤ obtainedOfAnswer questions a := by
  unfold obtainedOfAnswer
  cases hq : findQuestion questions a.question_id with
  | none => exact le_refl 0
  | some q =>
    have hqm := hmarks q (List.mem_of_find?_eq_some hq)
    cases a.selected_option with
    | none => exact le_refl 0
    | some s =>
      show (0 : Int) ≤ if s = q.correct_option then q.marks else 0
      by_cases hc : s = q.correct_option
      · simp only [if_pos hc]; omega
      · simp only [if_neg hc]; omega

theorem obtainedOfAnswer_le_marks (questions : List Question) (a : StudentAnswer)
    (hmarks : ∀ q ∈ questions, 1 ≤ q.marks) :
    obtainedOfAnswer questions a ≤ marksOfAnswer questions a := by
  unfold obtainedOfAnswer marksOfAnswer
  cases hq : findQuestion questions a.question_id with
  | none => exact le_refl 0
  | some q =>
    have hqm := hmarks q (List.mem_of_find?_eq_some hq)
    cases a.selected_option with
    | none =>
      show (0 : Int) ≤ q.marks
      omega
    | some s =>
      show (if s = q.correct_option then q.marks else 0) ≤ q.marks
      by_cases hc : s = q.correct_option
      · simp only [if_pos hc]; omega
      · simp only [if_neg hc]; omega

theorem marksOfAnswer_pos (questions : List Question) (a : StudentAnswer)
    (hmarks : ∀ q ∈ questions, 1 ≤ q.marks)
    (hfound : (findQuestion questions a.question_id).isSome = true) :
    1 ≤ marksOfAnswer questions a := by
  unfold marksOfAnswer
  cases hq : findQuestion questions a.question_id with
  | none => rw [hq] at hfound; simp at hfound
  | some q => exact hmarks q (List.mem_of_find?_eq_some hq)

/-- Claim C2: grading sets `total_marks` to the sum of all question marks
in the attempt, `obtained_marks` to the marks of correctly answered
questions (unanswered contributes zero), `total_answered` to the count of
non-null selections, `correct_answers` to the count of correct selections,
`percentage` to obtained/total × 100 with `passed` true iff it reaches
`passing_marks`, and the percentage lies in [0, 100].  Hypotheses: every
answer row's question still exists, every question carries the
schema-validated `marks ≥ 1`, and the attempt has at least one answer row
(attempts are created with one row per question of a non-empty
`question_order`). -/
theorem c2_grading_aggregates (questions : List Question) (exam : Exam)
    (attempt : ExamAttempt) (now : Int)
    (hfound : ∀ a ∈ attempt.answers,
      (findQuestion questions a.question_id).isSome = true)
    (hmarks : ∀ q ∈ questions, 1 ≤ q.marks)
    (hne : attempt.answers ≠ []) :
    (calculate_results questions exam attempt now).total_marks =
      some ((attempt.answers.map (marksOfAnswer questions)).sum) ∧
    (calculate_results questions exam attempt now).obtained_marks =
      some ((attempt.answers.map (obtainedOfAnswer questions)).sum) ∧
    (calculate_results questions exam attempt now).total_answered =
      some (attempt.answers.countP (fun a => a.selected_option.isSome)) ∧
    (calculate_results questions exam attempt now).correct_answers =
      some (attempt.answers.countP (answerCorrect questions)) ∧
    0 < (attempt.answers.map (marksOfAnswer questions)).sum ∧
    (calculate_results questions exam attempt now).percentage =
      some ((((attempt.answers.map (obtainedOfAnswer questions)).sum : Int) : Rat) /
        (((attempt.answers.map (marksOfAnswer questions)).sum : Int) : Rat) * 100) ∧
    (calculate_results questions exam attempt now).passed =
      some (decide ((((attempt.answers.map (obtainedOfAnswer questions)).sum : Int) : Rat) /
        (((attempt.answers.map (marksOfAnswer questions)).sum : Int) : Rat) * 100 ≥
          (exam.passing_marks : Rat))) ∧
    0 ≤ (((attempt.answers.map (obtainedOfAnswer questions)).sum : Int) : Rat) /
        (((attempt.answers.map (marksOfAnswer questions)).sum : Int) : Rat) * 100 ∧
    (((attempt.answers.map (obtainedOfAnswer questions)).sum : Int) : Rat) /
        (((attempt.answers.map (marksOfAnswer questions)).sum : Int) : Rat) * 100 ≤ 100 := by
  have ht := gradeTotals_eq questions attempt.answers
  have htm_pos : 0 < (attempt.answers.map (marksOfAnswer questions)).sum := by
    cases hl : attempt.answers with
    | nil => exact absurd hl hne
    | cons a rest =>
      have h1 : 1 ≤ marksOfAnswer questions a := by
        apply marksOfAnswer_pos questions a hmarks
        exact hfound a (by rw [hl]; exact List.mem_cons_self a rest)
      have h2 : 0 ≤ (rest.map (marksOfAnswer questions)).sum := by
        apply List.sum_nonneg
        intro x hx
        rcases List.mem_map.mp hx with ⟨b, _, rfl⟩
        exact marksOfAnswer_nonneg questions b hmarks
      simp only [List.map_cons, List.sum_cons]
      omega
  have hom_nonneg : 0 ≤ (attempt.answers.map (obtainedOfAnswer questions)).sum := by
    apply List.sum_nonneg
    intro x hx
    rcases List.mem_map.mp hx with ⟨b, _, rfl⟩
    exact obtainedOfAnswer_nonneg questions b hmarks
  have hom_le : (attempt.answers.map (obtainedOfAnswer questions)).sum ≤
      (attempt.answers.map (marksOfAnswer questions)).sum := by
    apply List.sum_le_sum
    intro b _
    exact obtainedOfAnswer_le_marks questions b hmarks
  have hcount : attempt.answers.countP (answerCounted questions) =
      attempt.answers.countP (fun a => a.selected_option.isSome) := by
    apply List.countP_congr
    intro a ha
    have hf := hfound a ha
    unfold answerCounted
    cases hq : findQuestion questions a.question_id with
    | none => rw [hq] at hf; simp at hf
    | some q => cases a.selected_option <;> simp
  have hratq_pos :
      (0 : Rat) < (((attempt.answers.map (marksOfAnswer questions)).sum : Int) : Rat) := by
    exact_mod_cast htm_pos
  have hdiv_nonneg :
      0 ≤ (((attempt.answers.map (obtainedOfAnswer questions)).sum : Int) : Rat) /
        (((attempt.answers.map (marksOfAnswer questions)).sum : Int) : Rat) * 100 := by
    apply mul_nonneg
    · apply div_nonneg
      · exact_mod_cast hom_nonneg
      · exact le_of_lt hratq_pos
    · norm_num
  have hdiv_le :
      (((attempt.answers.map (obtainedOfAnswer questions)).sum : Int) : Rat) /
        (((attempt.answers.map (marksOfAnswer questions)).sum : Int) : Rat) * 100 ≤ 100 := by
    have h1 : (((attempt.answers.map (obtainedOfAnswer questions)).sum : Int) : Rat) /
        (((attempt.answers.map (marksOfAnswer questions)).sum : Int) : Rat) ≤ 1 := by
      rw [div_le_one hratq_pos]
      exact_mod_cast hom_le
    calc (((attempt.answers.map (obtainedOfAnswer questions)).sum : Int) : Rat) /
          (((attempt.answers.map (marksOfAnswer questions)).sum : Int) : Rat) * 100
        ≤ 1 * 100 := by
          apply mul_le_mul_of_nonneg_right h1
          norm_num
      _ = 100 := by norm_num
  refine ⟨?_, ?_, ?_, ?_, htm_pos, ?_, ?_, hdiv_nonneg, hdiv_le⟩
  · unfold calculate_results
    split <;> simp [ht]
  · unfold calculate_results
    split <;> simp [ht]
  · unfold calculate_results
    split <;> simp [ht, hcount]
  · unfold calculate_results
    split <;> simp [ht]
  · unfold calculate_results
    split <;> simp [ht, if_pos htm_pos]
  · unfold calculate_results
    split <;> simp [ht, if_pos htm_pos]

/-- Scenario A, question 1: marks 1, correct option A. -/
def c2q1 : Question :=
  { id := 1
    exam_id := 10
    question_text := "q1"
    option_a := "a1"
    option_b := "b1"
    option_c := "c1"
    option_d := "d1"
    correct_option := Label.A
    marks := 1
    order_index := 1
    is_active := true }

/-- Scenario A, question 2: marks 2, correct option B. -/
def c2q2 : Question :=
  { id := 2
    exam_id := 10
    question_text := "q2"
    option_a := "a2"
    option_b := "b2"
    option_c := "c2"
    option_d := "d2"
    correct_option := Label.B
    marks := 2
    order_index := 2
    is_active := true }

/-- A concrete exam configuration: passing marks 40, duration 60 minutes. -/
def wExam : Exam :=
  { id := 10
    title := "E"
    total_questions := 2
    passing_marks := 40
    duration_minutes := 60
    batch_time := "9AM"
    is_active := true
    allow_retakes := false
    max_retakes := 0
    shuffle_questions := false
    shuffle_options := false
    show_result_immediately := false }

/-- Witness for C2, instantiated at Scenario A: two questions of marks 1
and 2, Q1 answered correctly and Q2 incorrectly; the grading aggregates come
out as total 3, obtained 1, answered 2, correct 1, percentage 100/3
(33.33 to two decimals) and passed false against the threshold 40. -/
theorem c2_grading_aggregates_witness :
    (calculate_results [c2q1, c2q2] wExam wAttempt 99).total_marks = some 3 ∧
    (calculate_results [c2q1, c2q2] wExam wAttempt 99).obtained_marks = some 1 ∧
    (calculate_results [c2q1, c2q2] wExam wAttempt 99).total_answered = some 2 ∧
    (calculate_results [c2q1, c2q2] wExam wAttempt 99).correct_answers = some 1 ∧
    (calculate_results [c2q1, c2q2] wExam wAttempt 99).percentage =
      some ((100 : Rat) / 3) ∧
    (calculate_results [c2q1, c2q2] wExam wAttempt 99).passed = some false := by
  have h := c2_grading_aggregates [c2q1, c2q2] wExam wAttempt 99
    (by decide) (by decide) (by decide)
  refine ⟨h.1.trans (by decide), h.2.1.trans (by decide),
    h.2.2.1.trans (by decide), h.2.2.2.1.trans (by decide),
    h.2.2.2.2.2.1.trans ?_, h.2.2.2.2.2.2.1.trans ?_⟩
  · have hs : (List.map (obtainedOfAnswer [c2q1, c2q2]) wAttempt.answers).sum = 1 := by
      decide
    have hs' : (List.map (marksOfAnswer [c2q1, c2q2]) wAttempt.answers).sum = 3 := by
      decide
    rw [hs, hs']
    norm_num
  · have hs : (List.map (obtainedOfAnswer [c2q1, c2q2]) wAttempt.answers).sum = 1 := by
      decide
    have hs' : (List.map (marksOfAnswer [c2q1, c2q2]) wAttempt.answers).sum = 3 := by
      decide
    rw [hs, hs']
    have hlt : ¬ (((1 : Int) : Rat) / ((3 : Int) : Rat) * 100 ≥
        ((wExam.passing_marks : Int) : Rat)) := by
      show ¬ (((1 : Int) : Rat) / ((3 : Int) : Rat) * 100 ≥ ((40 : Int) : Rat))
      norm_num
    simp only [hlt, decide_eq_false_iff_not]
    decide

theorem calculate_results_answers_pairs (questions : List Question) (exam : Exam)
    (attempt : ExamAttempt) (now : Int) :
    (calculate_results questions exam attempt now).answers.map
        (fun a => (a.question_id, a.selected_option)) =
      attempt.answers.map (fun a => (a.question_id, a.selected_option)) := by
  unfold calculate_results
  split <;>
    simp [List.map_map, Function.comp_def, gradeOne_question_id,
      gradeOne_selected_option]

/-- Claim C4: on an `in_progress` attempt whose elapsed time exceeds the
exam duration, both the answer auto-save call and the resume call fail with
the expiry error while the forced side effect is still applied to the
persisted state: status becomes `timed_out`, `end_time` is stamped, the
grading aggregates are populated, and the answer submitted by the failing
auto-save call is discarded (every row keeps its previous selection and no
row is added). -/
theorem c4_expiry_side_effect (questions : List Question) (exam : Exam)
    (attempt : ExamAttempt) (data : AnswerSubmit) (now : Int)
    (hst : attempt.status = AttemptStatus.in_progress)
    (hexp : now - attempt.start_time > exam.duration_minutes * 60) :
    (submit_answer questions exam attempt data now).1 =
      .error "Exam time has expired" ∧
    (submit_answer questions exam attempt data now).2.status =
      AttemptStatus.timed_out ∧
    (submit_answer questions exam attempt data now).2.end_time = some now ∧
    (submit_answer questions exam attempt data now).2.total_marks.isSome = true ∧
    (submit_answer questions exam attempt data now).2.obtained_marks.isSome = true ∧
    (submit_answer questions exam attempt data now).2.percentage.isSome = true ∧
    (submit_answer questions exam attempt data now).2.passed.isSome = true ∧
    (submit_answer questions exam attempt data now).2.total_answered.isSome = true ∧
    (submit_answer questions exam attempt data now).2.correct_answers.isSome = true ∧
    (submit_answer questions exam attempt data now).2.answers.map
        (fun a => (a.question_id, a.selected_option)) =
      attempt.answers.map (fun a => (a.question_id, a.selected_option)) ∧
    (resume_attempt questions exam attempt now).1 =
      .error "Exam time has expired" ∧
    (resume_attempt questions exam attempt now).2.status =
      AttemptStatus.timed_out ∧
    (resume_attempt questions exam attempt now).2.end_time = some now ∧
    (resume_attempt questions exam attempt now).2.total_marks.isSome = true := by
  have hs1 : ¬ (attempt.status ≠ AttemptStatus.in_progress) := by simp [hst]
  have h1 : submit_answer questions exam attempt data now =
      (.error "Exam time has expired",
       calculate_results questions exam
         { attempt with status := AttemptStatus.timed_out, end_time := some now }
         now) := by
    simp only [submit_answer]
    rw [if_neg hs1, if_pos hexp]
  have hr : max 0 (exam.duration_minutes * 60 - (now - attempt.start_time)) ≤ 0 := by
    rw [max_le_iff]
    constructor <;> omega
  have h2 : resume_attempt questions exam attempt now =
      (.error "Exam time has expired",
       calculate_results questions exam
         { attempt with status := AttemptStatus.timed_out, end_time := some now }
         now) := by
    simp only [resume_attempt]
    rw [if_pos hr]
  have hagg := calculate_results_aggregates_set questions exam
    { attempt with status := AttemptStatus.timed_out, end_time := some now } now
  refine ⟨by rw [h1], ?_, ?_, ?_, ?_, ?_, ?_, ?_, ?_, ?_, by rw [h2], ?_, ?_, ?_⟩
  · rw [h1]; rw [calculate_results_status]
  · rw [h1]; rw [calculate_results_end_time]
  · rw [h1]; exact hagg.1
  · rw [h1]; exact hagg.2.1
  · rw [h1]; exact hagg.2.2.1
  · rw [h1]; exact hagg.2.2.2.1
  · rw [h1]; exact hagg.2.2.2.2.1
  · rw [h1]; exact hagg.2.2.2.2.2
  · rw [h1]; rw [calculate_results_answers_pairs]
  · rw [h2]; rw [calculate_results_status]
  · rw [h2]; rw [calculate_results_end_time]
  · rw [h2]; exact hagg.1

/-- The Scenario B attempt: in progress, started at time 0. -/
def c4Attempt : ExamAttempt :=
  { wAttempt with
    status := AttemptStatus.in_progress
    end_time := none
    total_marks := none
    obtained_marks := none
    percentage := none
    passed := none
    is_verified := false
    verified_by := none
    verified_at := none }

/-- Witness for C4 at Scenario B: duration 60 minutes, answer submitted at
T+61 minutes (3660 s): the call errors, the attempt is timed out with its
end time stamped and aggregates populated, and the submitted answer is
dropped. -/
theorem c4_expiry_side_effect_witness :
    (submit_answer [c2q1, c2q2] wExam c4Attempt
        { question_id := 1, selected_option := some Label.B,
          marked_for_review := false } 3660).1 =
      .error "Exam time has expired" ∧
    (submit_answer [c2q1, c2q2] wExam c4Attempt
        { question_id := 1, selected_option := some Label.B,
          marked_for_review := false } 3660).2.status = AttemptStatus.timed_out ∧
    (submit_answer [c2q1, c2q2] wExam c4Attempt
        { question_id := 1, selected_option := some Label.B,
          marked_for_review := false } 3660).2.end_time = some 3660 ∧
    (submit_answer [c2q1, c2q2] wExam c4Attempt
        { question_id := 1, selected_option := some Label.B,
          marked_for_review := false } 3660).2.total_marks.isSome = true ∧
    (submit_answer [c2q1, c2q2] wExam c4Attempt
        { question_id := 1, selected_option := some Label.B,
          marked_for_review := false } 3660).2.answers.map
        (fun a => (a.question_id, a.selected_option)) =
      c4Attempt.answers.map (fun a => (a.question_id, a.selected_option)) := by
  have h := c4_expiry_side_effect [c2q1, c2q2] wExam c4Attempt
    { question_id := 1, selected_option := some Label.B,
      marked_for_review := false } 3660 (by decide) (by decide)
  exact ⟨h.1, h.2.1, h.2.2.1, h.2.2.2.1, h.2.2.2.2.2.2.2.2.2.1⟩

theorem OptionMap.roundtrip (m : OptionMap) (hm : m.isShuffle) (l : Label) :
    m.invApply (m.apply l) = l ∧ m.apply (m.invApply l) = l := by
  rcases m with ⟨a, b, c, d⟩
  revert hm
  cases a <;> cases b <;> cases c <;> cases d <;> cases l <;> decide

theorem findAnswer_question_id {answers : List StudentAnswer} {qid : Nat}
    {a : StudentAnswer} (h : findAnswer answers qid = some a) :
    a.question_id = qid := by
  unfold findAnswer at h
  have h2 := List.find?_some h
  simpa using h2

/-- Claim C5: for a shuffled attempt the stored per-question map is a
bijection on the four labels; translating through the map and back through
its inverse is the identity in both directions; the auto-save endpoint
stores the submitted shuffled label translated to original space; and
grading compares that translated label (never the shuffled one) against the
question's `correct_option`. -/
theorem c5_shuffle_roundtrip_and_grading (attempt : ExamAttempt)
    (questions : List Question) (exam : Exam) (m : OptionMap) (q : Question)
    (s : Label) (mfr : Bool) (now : Int)
    (hm : m.isShuffle)
    (hst : attempt.status = AttemptStatus.in_progress)
    (hq : lookupMap attempt.answer_order q.id = some m)
    (hnexp : ¬ (now - attempt.start_time > exam.duration_minutes * 60))
    (hfq : findQuestion questions q.id = some q) :
    Function.Bijective m.apply ∧
    (∀ l, m.invApply (m.apply l) = l) ∧
    (∀ l, m.apply (m.invApply l) = l) ∧
    findAnswer (submit_answer questions exam attempt
        { question_id := q.id, selected_option := some s,
          marked_for_review := mfr } now).2.answers q.id =
      some { (findAnswer attempt.answers q.id).getD (blankAnswer q.id) with
             selected_option := some (m.apply s)
             marked_for_review := mfr
             answered_at := some now } ∧
    (gradeOne questions
        { (findAnswer attempt.answers q.id).getD (blankAnswer q.id) with
          selected_option := some (m.apply s)
          marked_for_review := mfr
          answered_at := some now }).is_correct =
      some (decide (m.apply s = q.correct_option)) := by
  have hinv1 : ∀ l, m.invApply (m.apply l) = l := fun l => (m.roundtrip hm l).1
  have hinv2 : ∀ l, m.apply (m.invApply l) = l := fun l => (m.roundtrip hm l).2
  have hbij : Function.Bijective m.apply :=
    Function.bijective_iff_has_inverse.mpr ⟨m.invApply, hinv1, hinv2⟩
  have hs1 : ¬ (attempt.status ≠ AttemptStatus.in_progress) := by simp [hst]
  have hrowqid :
      ((findAnswer attempt.answers q.id).getD (blankAnswer q.id)).question_id = q.id := by
    cases hfa : findAnswer attempt.answers q.id with
    | none => rfl
    | some a => exact findAnswer_question_id hfa
  have hred : (submit_answer questions exam attempt
      { question_id := q.id, selected_option := some s,
        marked_for_review := mfr } now).2.answers =
      updateAnswerRow q.id (fun a =>
        { a with selected_option := some (m.apply s)
                 marked_for_review := mfr
                 answered_at := some now }) attempt.answers := by
    simp only [submit_answer]
    rw [if_neg hs1, if_neg hnexp]
    simp [translateSelected, hq]
  refine ⟨hbij, hinv1, hinv2, ?_, ?_⟩
  · rw [hred]
    exact findAnswer_updateAnswerRow q.id
      (fun a => { a with selected_option := some (m.apply s)
                         marked_for_review := mfr
                         answered_at := some now })
      (fun a => rfl) attempt.answers
  · unfold gradeOne
    simp only [hrowqid, hfq]
    by_cases hc : m.apply s = q.correct_option
    · simp [hc]
    · simp [hc]

/-- A concrete shuffle map: shuffled A,B,C,D hold originals C,A,D,B. -/
def wMap : OptionMap :=
  { a := Label.C, b := Label.A, c := Label.D, d := Label.B }

/-- The C5 witness attempt: in progress with a stored shuffle map for
question 1. -/
def c5Attempt : ExamAttempt :=
  { c4Attempt with answer_order := [(1, wMap)] }

/-- Witness for C5 at a concrete shuffled attempt: the stored map is a
bijection, the round trips hold on label A, the auto-save stores the
translated original label C for submitted shuffled label A, and grading
compares that C against the question's correct option A. -/
theorem c5_shuffle_roundtrip_and_grading_witness :
    Function.Bijective wMap.apply ∧
    wMap.invApply (wMap.apply Label.A) = Label.A ∧
    wMap.apply (wMap.invApply Label.A) = Label.A ∧
    findAnswer (submit_answer [c2q1, c2q2] wExam c5Attempt
        { question_id := c2q1.id, selected_option := some Label.A,
          marked_for_review := false } 60).2.answers c2q1.id =
      some { (findAnswer c5Attempt.answers c2q1.id).getD (blankAnswer c2q1.id) with
             selected_option := some (wMap.apply Label.A)
             marked_for_review := false
             answered_at := some 60 } ∧
    (gradeOne [c2q1, c2q2]
        { (findAnswer c5Attempt.answers c2q1.id).getD (blankAnswer c2q1.id) with
          selected_option := some (wMap.apply Label.A)
          marked_for_review := false
          answered_at := some 60 }).is_correct =
      some (decide (wMap.apply Label.A = c2q1.correct_option)) := by
  have h := c5_shuffle_roundtrip_and_grading c5Attempt [c2q1, c2q2] wExam wMap
    c2q1 Label.A false 60 (by decide) (by decide) (by decide) (by decide) (by decide)
  exact ⟨h.1, h.2.1 Label.A, h.2.2.1 Label.A, h.2.2.2.1, h.2.2.2.2⟩

/-- Claim C6: for a student whose attempts on the exam are all terminal
(at least one, no in-progress attempt), the retake gate behaves identically
in the availability listing and in the start operation: with
`allow_retakes` off it locks "already completed"; with retakes on and a
positive `max_retakes` already reached it locks "maximum retakes reached";
otherwise eligibility is decided by the `retake_allowed` flag of the most
recent attempt, locking "awaiting retake permission" when absent.
`max_retakes ≥ 0` is the schema-validated range (`ge=0`). -/
theorem c6_retake_gate (exam : Exam) (msg : String) (a : ExamAttempt)
    (rest : List ExamAttempt)
    (hterm : ∀ x ∈ a :: rest, isTerminal x.status = true)
    (hmax : 0 ≤ exam.max_retakes) :
    (exam.allow_retakes = false →
      availability_gate exam true true msg (a :: rest) =
        .locked "Exam already completed" ∧
      start_retake_gate exam (a :: rest) =
        .error "Exam already completed, retakes not allowed") ∧
    (exam.allow_retakes = true →
      ((exam.max_retakes > 0 ∧ ((a :: rest).length : Int) ≥ exam.max_retakes) →
        availability_gate exam true true msg (a :: rest) =
          .locked "Maximum retakes reached" ∧
        start_retake_gate exam (a :: rest) =
          .error "Maximum retake attempts reached") ∧
      (¬ (exam.max_retakes > 0 ∧ ((a :: rest).length : Int) ≥ exam.max_retakes) →
        ((firstMaxBy (fun x => x.created_at) a rest).retake_allowed = true →
          availability_gate exam true true msg (a :: rest) = .eligible true ∧
          start_retake_gate exam (a :: rest) = .ok ()) ∧
        ((firstMaxBy (fun x => x.created_at) a rest).retake_allowed = false →
          availability_gate exam true true msg (a :: rest) =
            .locked "Awaiting retake permission" ∧
          start_retake_gate exam (a :: rest) =
            .error "Awaiting retake permission from manager"))) := by
  have hfilter : (a :: rest).filter (fun x => isTerminal x.status) = a :: rest :=
    List.filter_eq_self.mpr hterm
  have hlen : ((a :: rest).length : Int) = (rest.length : Int) + 1 := by simp
  constructor
  · intro hal
    constructor
    · unfold availability_gate
      simp only [hfilter, hal]
      simp
    · unfold start_retake_gate
      simp only [hfilter, hal]
      simp
  · intro hal
    constructor
    · intro hreached
      have h1 := hreached.1
      have h2 : ((rest.length : Int) + 1) ≥ exam.max_retakes := by
        rw [← hlen]; exact hreached.2
      constructor
      · unfold availability_gate
        simp only [hfilter, hal]
        simp
        intro hc
        exfalso
        omega
      · unfold start_retake_gate
        simp only [hfilter, hal]
        simp [h1]
        intro hc
        exfalso
        omega
    · intro hfree
      rw [hlen] at hfree
      have hok : exam.max_retakes = 0 ∨ ((rest.length : Int) + 1) < exam.max_retakes := by
        omega
      constructor
      · intro hra
        constructor
        · unfold availability_gate
          simp only [hfilter, hal]
          simp [hra]
          omega
        · unfold start_retake_gate
          simp only [hfilter, hal]
          simp [hra]
          omega
      · intro hra
        constructor
        · unfold availability_gate
          simp only [hfilter, hal]
          simp [hra]
          omega
        · unfold start_retake_gate
          simp only [hfilter, hal]
          simp [hra]
          omega

/-- The Scenario C retake-enabled exam: `allow_retakes` with `max_retakes = 1`. -/
def c6Exam : Exam := { wExam with allow_retakes := true, max_retakes := 1 }

/-- Witness for C6 at Scenario C: a student with one submitted attempt is
locked "already completed" when retakes are off, and "maximum retakes
reached" when retakes are on with `max_retakes = 1`, in the listing and the
start gates alike. -/
theorem c6_retake_gate_witness :
    availability_gate wExam true true "" [wAttempt] =
      .locked "Exam already completed" ∧
    start_retake_gate wExam [wAttempt] =
      .error "Exam already completed, retakes not allowed" ∧
    availability_gate c6Exam true true "" [wAttempt] =
      .locked "Maximum retakes reached" ∧
    start_retake_gate c6Exam [wAttempt] =
      .error "Maximum retake attempts reached" := by
  have h1 := (c6_retake_gate wExam "" wAttempt [] (by decide) (by decide)).1
    (by decide)
  have h2 := ((c6_retake_gate c6Exam "" wAttempt [] (by decide) (by decide)).2
    (by decide)).1 (by decide)
  exact ⟨h1.1, h1.2, h2.1, h2.2⟩

/-- A verified submitted attempt with percentage 50. -/
def c7Verified : ExamAttempt := { wAttempt with percentage := some 50, created_at := 1 }

/-- An unverified submitted attempt with percentage 90. -/
def c7Unverified : ExamAttempt :=
  { wAttempt with is_verified := false, percentage := some 90, created_at := 2 }

/-- Counterexample to C7 as stated: with a verified completed attempt at 50
and a higher-scoring unverified completed attempt at 90, the listing
reports no best score at all — the unverified attempt's existence prevents
the best verified percentage (50) from being reported. -/
theorem c7_counterexample :
    best_score [c7Verified, c7Unverified] = none ∧
    isTerminal c7Verified.status = true ∧
    c7Verified.is_verified = true ∧
    c7Verified.percentage = some 50 ∧
    isTerminal c7Unverified.status = true ∧
    c7Unverified.is_verified = false ∧
    c7Unverified.percentage = some 90 := by
  refine ⟨?_, rfl, rfl, rfl, rfl, rfl, rfl⟩
  norm_num [best_score, firstMaxBy, c7Verified, c7Unverified, wAttempt, isTerminal]

/-- Claim C7 (amended): `best_score` is the percentage of the single
highest-percentage completed attempt, reported only when that attempt is
verified; hence any reported best score belongs to a verified completed
attempt whose percentage dominates all completed attempts — but a
higher-scoring unverified attempt suppresses the report instead of falling
back to the best verified one. -/
theorem c7_best_score_amended (attempts : List ExamAttempt) (p : Rat)
    (h : best_score attempts = some p) :
    ∃ a, a ∈ attempts ∧ isTerminal a.status = true ∧ a.is_verified = true ∧
      a.percentage = some p ∧
      ∀ b ∈ attempts, isTerminal b.status = true →
        b.percentage.getD 0 ≤ a.percentage.getD 0 := by
  simp only [best_score] at h
  cases hfil : attempts.filter (fun a => isTerminal a.status) with
  | nil => rw [hfil] at h; simp at h
  | cons c cs =>
    rw [hfil] at h
    have h' : (if (firstMaxBy (fun a => a.percentage.getD 0) c cs).is_verified = true
        then (firstMaxBy (fun a => a.percentage.getD 0) c cs).percentage
        else none) = some p := h
    by_cases hv : (firstMaxBy (fun a => a.percentage.getD 0) c cs).is_verified = true
    · rw [if_pos hv] at h'
      have hmem2 : firstMaxBy (fun a => a.percentage.getD 0) c cs ∈
          attempts.filter (fun a => isTerminal a.status) := by
        rw [hfil]
        rcases firstMaxBy_mem (fun a => a.percentage.getD 0) c cs with h1 | h2
        · rw [h1]; exact List.mem_cons_self c cs
        · exact List.mem_cons_of_mem c h2
      refine ⟨firstMaxBy (fun a => a.percentage.getD 0) c cs,
        List.mem_of_mem_filter hmem2, (List.mem_filter.mp hmem2).2, hv, h', ?_⟩
      intro b hb hbt
      have hbf : b ∈ attempts.filter (fun a => isTerminal a.status) :=
        List.mem_filter.mpr ⟨hb, hbt⟩
      rw [hfil] at hbf
      rcases List.mem_cons.mp hbf with h1 | h2
      · exact firstMaxBy_key_le (fun a => a.percentage.getD 0) c cs b (Or.inl h1)
      · exact firstMaxBy_key_le (fun a => a.percentage.getD 0) c cs b (Or.inr h2)
    · rw [if_neg hv] at h'
      simp at h'

/-- Witness for the amended C7: with the verified 50-percent attempt alone,
the listing does report 50, coming from that verified attempt. -/
theorem c7_best_score_amended_witness :
    ∃ a, a ∈ [c7Verified] ∧ isTerminal a.status = true ∧ a.is_verified = true ∧
      a.percentage = some 50 ∧
      ∀ b ∈ [c7Verified], isTerminal b.status = true →
        b.percentage.getD 0 ≤ a.percentage.getD 0 :=
  c7_best_score_amended [c7Verified] 50 (by rfl)

/-- The matching rule exactly as the claim words it, for comparison with
the code's `schedule_matches`: batch-time and date equality, and the
schedule's `batch_identifier`, when set, must equal the student's. -/
def schedule_matches_claim (student : Student) (today : Int)
    (s : ExamSchedule) : Bool :=
  s.batch_time == student.batch_time && s.scheduled_date == today
    && (s.batch_identifier == none || s.batch_identifier == student.batch_identifier)

/-- A student with no batch identifier. -/
def c8Student : Student := { id := 5, batch_time := "9AM", batch_identifier := none }

/-- An active schedule for today whose batch identifier is set to A. -/
def c8Schedule : ExamSchedule :=
  { id := 1
    exam_id := 10
    batch_time := "9AM"
    batch_identifier := some "A"
    scheduled_date := 100
    start_time := 3600
    end_time := 7200
    is_active := true }

/-- Counterexample to C8 as stated: a schedule whose `batch_identifier` is
set to "A" is matched by the code to a student whose own identifier is
unset (the identifier filter is applied only when the student has one),
although the claim's rule deems them non-matching. -/
theorem c8_counterexample :
    schedule_matches 10 c8Student 100 c8Schedule = true ∧
    c8Schedule.batch_identifier = some "A" ∧
    c8Student.batch_identifier = none ∧
    schedule_matches_claim c8Student 100 c8Schedule = false := by decide

/-- Claim C8 (amended): the code's schedule matching holds iff the batch
times and dates are equal and EITHER the student's identifier is unset OR
the schedule's identifier is unset OR the two are equal — a set schedule
identifier is only enforced against students that have one.  When a
matching schedule is found, eligibility requires the current time to lie
within its `[start_time, end_time]`, with the specific start-time or
"time has ended" message otherwise. -/
theorem c8_schedule_matching_amended (eid : Nat) (student : Student)
    (today t : Int) (s s2 : ExamSchedule) (rest : List ExamSchedule)
    (schedules : List ExamSchedule) (exam : Exam)
    (hmatch : schedules.filter (schedule_matches exam.id student today) = s :: rest)
    (hse : s.start_time ≤ s.end_time) :
    (schedule_matches eid student today s2 = true ↔
      (s2.exam_id = eid ∧ s2.is_active = true ∧
       s2.batch_time = student.batch_time ∧ s2.scheduled_date = today ∧
       (student.batch_identifier = none ∨ s2.batch_identifier = none ∨
        s2.batch_identifier = student.batch_identifier))) ∧
    (t < s.start_time →
      check_exam_schedule schedules exam student today t =
        (false, some s, "Exam starts at " ++ toString s.start_time)) ∧
    (s.start_time ≤ t ∧ t ≤ s.end_time →
      check_exam_schedule schedules exam student today t = (true, some s, "")) ∧
    (t > s.end_time →
      check_exam_schedule schedules exam student today t =
        (false, some s, "Exam time has ended")) := by
  refine ⟨?_, ?_, ?_, ?_⟩
  · cases hbid : student.batch_identifier with
    | none =>
      simp [schedule_matches, hbid, Bool.and_eq_true, beq_iff_eq]
      tauto
    | some bid =>
      simp [schedule_matches, hbid, Bool.and_eq_true, beq_iff_eq]
      tauto
  · intro hlt
    simp only [check_exam_schedule]
    rw [hmatch]
    show (if t < s.start_time then
        (false, some s, "Exam starts at " ++ toString s.start_time)
      else if t > s.end_time then (false, some s, "Exam time has ended")
      else (true, some s, "")) =
        (false, some s, "Exam starts at " ++ toString s.start_time)
    rw [if_pos hlt]
  · intro hw
    simp only [check_exam_schedule]
    rw [hmatch]
    show (if t < s.start_time then
        (false, some s, "Exam starts at " ++ toString s.start_time)
      else if t > s.end_time then (false, some s, "Exam time has ended")
      else (true, some s, "")) = (true, some s, "")
    rw [if_neg (not_lt.mpr hw.1), if_neg (not_lt.mpr hw.2)]
  · intro hgt
    simp only [check_exam_schedule]
    rw [hmatch]
    show (if t < s.start_time then
        (false, some s, "Exam starts at " ++ toString s.start_time)
      else if t > s.end_time then (false, some s, "Exam time has ended")
      else (true, some s, "")) = (false, some s, "Exam time has ended")
    rw [if_neg (by omega), if_pos hgt]

/-- Witness for the amended C8: the identifier-A schedule matches the
identifier-less student under the flattened rule, and the window behaviour
is exercised at a time inside the window. -/
theorem c8_schedule_matching_amended_witness :
    (schedule_matches 10 c8Student 100 c8Schedule = true ↔
      (c8Schedule.exam_id = 10 ∧ c8Schedule.is_active = true ∧
       c8Schedule.batch_time = c8Student.batch_time ∧
       c8Schedule.scheduled_date = 100 ∧
       (c8Student.batch_identifier = none ∨ c8Schedule.batch_identifier = none ∨
        c8Schedule.batch_identifier = c8Student.batch_identifier))) ∧
    check_exam_schedule [c8Schedule] wExam c8Student 100 5000 =
      (true, some c8Schedule, "") := by
  have h := c8_schedule_matching_amended 10 c8Student 100 5000 c8Schedule
    c8Schedule [] [c8Schedule] wExam (by decide) (by decide)
  exact ⟨h.1, h.2.2.1 (by constructor <;> decide)⟩

/-- An exam whose stored `total_questions` (1) matches its active-question
count: one active question (id 1) and one inactive question (id 2). -/
def c9Exam : Exam := { wExam with total_questions := 1 }

/-- Question 2, deactivated. -/
def c9q2inactive : Question := { c2q2 with is_active := false }

/-- Claim C9, evaluated at the failing input (code bug): with the invariant
holding before (stored count 1 = active count 1), deleting the INACTIVE
question makes `delete_question` store `active_count - 1 = 0` although the
active count is still 1 — the decrement is applied with no regard to
whether the deleted question was active. -/
theorem c9_delete_inactive_breaks_invariant :
    c9Exam.total_questions = countActiveQuestions [c2q1, c9q2inactive] c9Exam.id ∧
    delete_question c9Exam [c2q1, c9q2inactive] 2 =
      .ok ({ c9Exam with total_questions := 0 }, [c2q1]) ∧
    countActiveQuestions [c2q1] c9Exam.id = 1 := ⟨rfl, rfl, rfl⟩

theorem answersMatchOrder_calculate_results (questions : List Question)
    (exam : Exam) (attempt : ExamAttempt) (now : Int)
    (hinv : answersMatchOrder attempt) :
    answersMatchOrder (calculate_results questions exam attempt now) := by
  unfold answersMatchOrder
  rw [calculate_results_answers_ids, calculate_results_question_order]
  exact hinv

theorem answersMatchOrder_update (attempt : ExamAttempt) (qid : Nat)
    (f : StudentAnswer → StudentAnswer) (tr : Option Int)
    (hf : ∀ a, (f a).question_id = a.question_id)
    (hinv : answersMatchOrder attempt) (hq : qid ∈ attempt.question_order) :
    answersMatchOrder { attempt with
      answers := updateAnswerRow qid f attempt.answers
      time_remaining_seconds := tr } := by
  have hmem : qid ∈ attempt.answers.map (fun a => a.question_id) :=
    (List.Perm.mem_iff hinv).mpr hq
  show List.Perm ((updateAnswerRow qid f attempt.answers).map
    (fun a => a.question_id)) attempt.question_order
  rw [updateAnswerRow_ids qid f hf attempt.answers hmem]
  exact hinv

theorem verify_attempt_ok_shape (attempt : ExamAttempt) (u : Nat)
    (notes : Option String) (now : Int) (a' : ExamAttempt)
    (h : verify_attempt attempt u notes now = .ok a') :
    a'.answers = attempt.answers ∧ a'.question_order = attempt.question_order := by
  unfold verify_attempt at h
  split at h
  · exact absurd h (by simp)
  · split at h
    · exact absurd h (by simp)
    · simp only [Except.ok.injEq] at h
      subst h
      exact ⟨rfl, rfl⟩

theorem allow_retake_ok_shape (attempt : ExamAttempt) (u : Nat)
    (notes : Option String) (now : Int) (a' : ExamAttempt)
    (h : allow_retake attempt u notes now = .ok a') :
    a'.answers = attempt.answers ∧ a'.question_order = attempt.question_order := by
  unfold allow_retake at h
  split at h
  · exact absurd h (by simp)
  · simp only [Except.ok.injEq] at h
    subst h
    split
    · exact ⟨rfl, rfl⟩
    · exact ⟨rfl, rfl⟩

/-- The attempt of the C3 counterexample: freshly created for questions
1 and 2. -/
def c3Attempt : ExamAttempt := create_attempt wExam 5 [1, 2] [] 0 0

/-- An inactive third question of the same exam (it exists in the store, so
the answer-row foreign key accepts it, but it is not in `question_order`). -/
def c3q3inactive : Question := { c2q2 with id := 3, is_active := false }

/-- Counterexample to C3 as stated: the auto-save endpoint lazily creates
an answer row for ANY submitted question id ("find or create"); submitting
an answer for question 3 — a question of the exam that is not in the
attempt's `question_order` — adds an extra `StudentAnswer` row, so the
multiset of rows no longer equals `question_order`. -/
theorem c3_counterexample :
    answersMatchOrder c3Attempt ∧
    ¬ answersMatchOrder (submit_answer [c2q1, c2q2, c3q3inactive] wExam c3Attempt
        { question_id := 3, selected_option := some Label.A,
          marked_for_review := false } 100).2 := by
  constructor
  · decide
  · decide

/-- Claim C3 (amended): one `StudentAnswer` row per `question_order` entry
is established at attempt creation (rows are materialised eagerly, not on
first answer) and preserved by answer auto-save FOR QUESTION IDS IN
`question_order`, by resume, by timeout and grading, by submit, by Verify
and by Allow-retake; an auto-save call whose question id lies outside
`question_order` breaks it by lazily creating an extra row. -/
theorem c3_answer_rows_invariant (questions : List Question) (exam : Exam)
    (attempt : ExamAttempt) (student_id : Nat) (qids : List Nat)
    (ao : List (Nat × OptionMap)) (n : Nat) (data : AnswerSubmit)
    (now : Int) (u : Nat) (notes : Option String)
    (hinv : answersMatchOrder attempt) :
    answersMatchOrder (create_attempt exam student_id qids ao n now) ∧
    (data.question_id ∈ attempt.question_order →
      answersMatchOrder (submit_answer questions exam attempt data now).2) ∧
    answersMatchOrder (resume_attempt questions exam attempt now).2 ∧
    answersMatchOrder (exceptState attempt (submit_exam questions exam attempt now)) ∧
    answersMatchOrder (exceptState attempt (verify_attempt attempt u notes now)) ∧
    answersMatchOrder (exceptState attempt (allow_retake attempt u notes now)) := by
  refine ⟨?_, ?_, ?_, ?_, ?_, ?_⟩
  · unfold answersMatchOrder create_attempt
    simp only [List.map_map, Function.comp_def, blankAnswer]
    simp
  · intro hq
    unfold submit_answer
    by_cases hs : attempt.status ≠ AttemptStatus.in_progress
    · rw [if_pos hs]
      exact hinv
    · rw [if_neg hs]
      by_cases he : now - attempt.start_time > exam.duration_minutes * 60
      · rw [if_pos he]
        exact answersMatchOrder_calculate_results questions exam _ now hinv
      · rw [if_neg he]
        exact answersMatchOrder_update attempt data.question_id _ _
          (fun a => rfl) hinv hq
  · unfold resume_attempt
    by_cases he : max 0 (exam.duration_minutes * 60 - (now - attempt.start_time)) ≤ 0
    · rw [if_pos he]
      exact answersMatchOrder_calculate_results questions exam _ now hinv
    · rw [if_neg he]
      exact hinv
  · cases hres : submit_exam questions exam attempt now with
    | error e => exact hinv
    | ok a' =>
      unfold submit_exam at hres
      split at hres
      · exact absurd hres (by simp)
      · simp only [Except.ok.injEq] at hres
        subst hres
        exact answersMatchOrder_calculate_results questions exam _ now hinv
  · cases hres : verify_attempt attempt u notes now with
    | error e => exact hinv
    | ok a' =>
      have hsh := verify_attempt_ok_shape attempt u notes now a' hres
      show List.Perm (a'.answers.map (fun a => a.question_id)) a'.question_order
      rw [hsh.1, hsh.2]
      exact hinv
  · cases hres : allow_retake attempt u notes now with
    | error e => exact hinv
    | ok a' =>
      have hsh := allow_retake_ok_shape attempt u notes now a' hres
      show List.Perm (a'.answers.map (fun a => a.question_id)) a'.question_order
      rw [hsh.1, hsh.2]
      exact hinv

/-- Witness for the amended C3 at concrete inputs: a fresh attempt for
questions 1,2 satisfies the invariant, and an auto-save for question 1
(which is in `question_order`) preserves it, as do resume, submit, Verify
and Allow-retake. -/
theorem c3_answer_rows_invariant_witness :
    answersMatchOrder (create_attempt wExam 5 [1, 2] [] 0 0) ∧
    answersMatchOrder (submit_answer [c2q1, c2q2] wExam c3Attempt
      { question_id := 1, selected_option := some Label.B,
        marked_for_review := false } 100).2 ∧
    answersMatchOrder (resume_attempt [c2q1, c2q2] wExam c3Attempt 100).2 ∧
    answersMatchOrder
      (exceptState c3Attempt (submit_exam [c2q1, c2q2] wExam c3Attempt 100)) ∧
    answersMatchOrder
      (exceptState c3Attempt (verify_attempt c3Attempt 7 none 100)) ∧
    answersMatchOrder
      (exceptState c3Attempt (allow_retake c3Attempt 7 none 100)) := by
  have h := c3_answer_rows_invariant [c2q1, c2q2] wExam c3Attempt 5 [1, 2] [] 0
    { question_id := 1, selected_option := some Label.B,
      marked_for_review := false } 100 7 none (by decide)
  exact ⟨h.1, h.2.1 (by decide), h.2.2.1, h.2.2.2.1, h.2.2.2.2.1, h.2.2.2.2.2⟩

end RTS
